import Mathlib

/-!
Verification development for the skewer message-forwarding core.

This file gives a shallow embedding of the parts of the repository that the
claims are about and proves theorems over that embedding:

* `store/forwarder.go`: the Kafka forwarder (the per-message processing of
  `getAndSendMessages`, the `Forward` compare-and-swap entry point, `doForward`,
  and `listenKafkaResponses`).
* `cmd/serve.go`: the supervisor's reaction to a fatal forwarder error and its
  `Reload` closure.
* `services/journald.go` and `server/journald.go`: the two `EntryToSyslog`
  variants.
* the TCP service file (tcpHandler.HandleConnection's per-message body and the
  `TcpSplit` framing function).

Pure functions of the Go source become Lean functions; the external
collaborators (the javascript filter environment, the sarama producer, the
ULID generator) become explicit parameters; fallible Go code returns `Option`;
slice accesses are modelled with explicit bounds checks so that the Go runtime
panic on an out-of-range slice is an explicit result constructor.
-/

abbrev ConfId := String

abbrev Uid := String

/-- model.SyslogMessage: the fields touched by the embedded code.  Go's zero
`time.Time` (for which `IsZero()` is true) is `none`; a concrete instant is
`some ns` (nanoseconds since the Unix epoch, as produced by `time.Unix`). -/
structure SyslogMessage where
  priority : Int
  facility : Int
  severity : Int
  hostname : String
  appname : String
  procid : String
  message : String
  timeReported : Option Int
  timeGenerated : Option Int
  properties : List (String × String)
deriving DecidableEq

/-- The zero value of model.SyslogMessage. -/
def emptySyslogMessage : SyslogMessage :=
  ⟨0, 0, 0, "", "", "", "", none, none, []⟩

/-- model.ParsedMessage. -/
structure ParsedMessage where
  fields : SyslogMessage
  client : String
  localPort : Int
  unixSocketPath : String
deriving DecidableEq

/-- model.TcpUdpParsedMessage: the unit handed to the forwarder by the store's
Outputs stream (the spec's StoredMessage). -/
structure StoredMessage where
  uid : Uid
  confId : ConfId
  parsed : ParsedMessage
deriving DecidableEq

/-- conf.SyslogConfig: only the fields the forwarder reads. -/
structure SyslogConf where
  confID : ConfId
  filterFunc : String
  topicFunc : String
  topicTmpl : String
  partitionFunc : String
  partitionTmpl : String
deriving DecidableEq

/-- conf.KafkaConfig, opaque to the supervisor and forwarder control logic. -/
structure KafkaConfig where
  brokers : List String
  clientID : String
deriving DecidableEq

/-- sarama.ProducerMessage as built by ToKafkaMessage: topic, partition key,
encoded value, and the Metadata field that carries the store uid. -/
structure KafkaMsg where
  topic : String
  key : String
  value : String
  metadata : Uid
deriving DecidableEq

/-- javascript.FilterResult: PASS, DROPPED and REJECTED are matched explicitly
by getAndSendMessages; `ERROR` stands for every other value (the `default`
branch of the switch). -/
inductive FilterResult
  | PASS
  | DROPPED
  | REJECTED
  | ERROR
deriving DecidableEq

/-- A terminal store call made by the forwarder for a message uid. -/
inductive StoreAction
  | ack (uid : Uid)
  | nack (uid : Uid)
  | permError (uid : Uid)
deriving DecidableEq

/-- What the per-message processing does with the message besides store calls:
hand it to the async producer, print it to stdout (test mode), or nothing. -/
inductive SendEffect
  | toProducer (m : KafkaMsg)
  | printed (m : KafkaMsg)
  | noSend
deriving DecidableEq

/-- The external collaborators of getAndSendMessages, as pure functions:
`GetSyslogConfig` is the store's config lookup (`none` = error return),
`Topic`/`PartitionKey`/`FilterMessage` are the javascript environment built
from a config (warnings are only logged and hence dropped here), and
`ToKafkaMessage` is model.ParsedMessage.ToKafkaMessage (`none` = error). -/
structure FwdEnv where
  GetSyslogConfig : ConfId → Option SyslogConf
  Topic : SyslogConf → SyslogMessage → String
  PartitionKey : SyslogConf → SyslogMessage → String
  FilterMessage : SyslogConf → SyslogMessage → Option SyslogMessage × FilterResult
  ToKafkaMessage : ParsedMessage → String → String → Option KafkaMsg

/-- The body of the `ForOutputs` loop of getAndSendMessages after the filter
environment for the message's config id has been resolved
(store/forwarder.go lines 127-191).  Returns the store calls made for this
message, the send effect, and the (unchanged) environment cache. -/
def sendWithEnv (fwd : FwdEnv) (producerPresent : Bool) (env : SyslogConf)
    (msg : StoredMessage) (cache : List (ConfId × SyslogConf)) :
    List StoreAction × SendEffect × List (ConfId × SyslogConf) :=
  let topic := fwd.Topic env msg.parsed.fields
  let partitionKey := fwd.PartitionKey env msg.parsed.fields
  if topic.length = 0 ∨ partitionKey.length = 0 then
    ([.permError msg.uid], .noSend, cache)
  else
    match fwd.FilterMessage env msg.parsed.fields with
    | (_, .DROPPED) => ([.ack msg.uid], .noSend, cache)
    | (_, .REJECTED) => ([.nack msg.uid], .noSend, cache)
    | (none, .PASS) => ([.ack msg.uid], .noSend, cache)
    | (some tmsg, .PASS) =>
      let nmsg : ParsedMessage :=
        ⟨tmsg, msg.parsed.client, msg.parsed.localPort, msg.parsed.unixSocketPath⟩
      match fwd.ToKafkaMessage nmsg partitionKey topic with
      | none => ([.permError msg.uid], .noSend, cache)
      | some kafkaMsg =>
        let tagged := { kafkaMsg with metadata := msg.uid }
        if producerPresent then ([], .toProducer tagged, cache)
        else ([.ack msg.uid], .printed tagged, cache)
    | (_, .ERROR) => ([.permError msg.uid], .noSend, cache)

/-- One iteration of the `ForOutputs` loop of getAndSendMessages
(store/forwarder.go lines 104-191): resolve or build the cached filter
environment for the message's config id, then process the message. -/
def getAndSendOne (fwd : FwdEnv) (producerPresent : Bool)
    (cache : List (ConfId × SyslogConf)) (msg : StoredMessage) :
    List StoreAction × SendEffect × List (ConfId × SyslogConf) :=
  match cache.lookup msg.confId with
  | some env => sendWithEnv fwd producerPresent env msg cache
  | none =>
    match fwd.GetSyslogConfig msg.confId with
    | none => ([.permError msg.uid], .noSend, cache)
    | some config =>
      sendWithEnv fwd producerPresent config msg ((msg.confId, config) :: cache)

/-- getAndSendMessages over a finite prefix of the store's Outputs stream,
threading the jsenvs cache, collecting store calls and send effects in order. -/
def getAndSendMessages (fwd : FwdEnv) (producerPresent : Bool) :
    List (ConfId × SyslogConf) → List StoredMessage →
    List StoreAction × List SendEffect
  | _, [] => ([], [])
  | cache, msg :: rest =>
    let r := getAndSendOne fwd producerPresent cache msg
    let rr := getAndSendMessages fwd producerPresent r.2.2 rest
    (r.1 ++ rr.1, r.2.1 :: rr.2)

/-- The forwarder's mutable control state: the atomic `forwarding` flag and
the waitgroup counter `wg`. -/
structure ForwarderState where
  forwarding : Bool
  wgCount : Nat
deriving DecidableEq

/-- kafkaForwarder.Forward (store/forwarder.go lines 51-64): the
compare-and-swap on the forwarding flag.  On success it does `wg.Add(1)` and
starts the session (returns true); if the flag was already set it returns
false and changes nothing. -/
def Forward (s : ForwarderState) : Bool × ForwarderState :=
  if s.forwarding then (false, s)
  else (true, { forwarding := true, wgCount := s.wgCount + 1 })

/-- The monitor goroutine of Forward (lines 59-62): it runs `wg.Wait()` and
only then stores 0 into the flag.  The wait is modelled by the step being a
no-op while the workgroup counter is nonzero. -/
def monitorClear (s : ForwarderState) : ForwarderState :=
  if s.wgCount = 0 then { s with forwarding := false } else s

/-- `n` consecutive Forward calls (any serialization of concurrent callers:
the compare-and-swap makes each call atomic). -/
def forwardCalls (s : ForwarderState) : Nat → List Bool × ForwarderState
  | 0 => ([], s)
  | n + 1 =>
    let r := Forward s
    let rr := forwardCalls r.2 n
    (r.1 :: rr.1, rr.2)

/-- What doForward (store/forwarder.go lines 66-87) starts: whether a producer
was created, whether the listenKafkaResponses task was started, whether the
getAndSendMessages task was started, and whether the latter got a non-nil
producer. -/
structure SessionSetup where
  producerCreated : Bool
  listenerStarted : Bool
  senderStarted : Bool
  senderHasProducer : Bool
deriving DecidableEq

/-- doForward: in test mode no producer is created and no response listener is
started; otherwise getProducer either yields a producer (listener and sender
started with it) or returns nil after cancellation (nothing started). -/
def doForward (test : Bool) (gotProducer : Bool) : SessionSetup :=
  if ¬test then
    if gotProducer then ⟨true, true, true, true⟩
    else ⟨true, false, false, false⟩
  else ⟨false, false, true, false⟩

/-- A response delivered on the producer's Successes or Errors channel;
`uid` is the Metadata carried by the message, `fatal` is the value of
model.IsFatalKafkaError on the error. -/
inductive KafkaResponse
  | succ (uid : Uid) (topic : String)
  | fail (uid : Uid) (topic : String) (fatal : Bool)

/-- State of listenKafkaResponses: the sync.Once guard and how many times
`close(fwder.errorChan)` has actually executed. -/
structure ListenerState where
  onceDone : Bool
  closeCount : Nat
deriving DecidableEq

/-- One iteration of the listenKafkaResponses select
(store/forwarder.go lines 224-244): a success is ACKed; a failure is NACKed,
and if the error is fatal the errors channel is closed under the Once guard. -/
def handleResponse (st : ListenerState) : KafkaResponse → List StoreAction × ListenerState
  | .succ uid _ => ([.ack uid], st)
  | .fail uid _ fatal =>
    if fatal && !st.onceDone then ([.nack uid], ⟨true, st.closeCount + 1⟩)
    else ([.nack uid], st)

def runListener (st : ListenerState) : List KafkaResponse → List StoreAction × ListenerState
  | [] => ([], st)
  | r :: rs =>
    let h := handleResponse st r
    let hh := runListener h.2 rs
    (h.1 ++ hh.1, hh.2)

/-- listenKafkaResponses over a finite trace of broker responses, starting
from a fresh sync.Once and an open errors channel. -/
def listenKafkaResponses (rs : List KafkaResponse) : List StoreAction × ListenerState :=
  runListener ⟨false, 0⟩ rs

/-- The single terminal store call the listener makes for a response. -/
def respAction : KafkaResponse → StoreAction
  | .succ uid _ => .ack uid
  | .fail uid _ _ => .nack uid

/-- Whether a trace contains a fatal broker error. -/
def hasFatal (rs : List KafkaResponse) : Bool :=
  rs.any fun r =>
    match r with
    | .fail _ _ true => true
    | _ => false

/-- The supervisor's reaction to the forwarder's errors channel closing
(cmd/serve.go lines 740-747): capture the current Kafka config, stop the
forwarder, and restart it with that config after sleeping one second. -/
structure ForwarderErrorReaction where
  stopsForwarder : Bool
  backoffSeconds : Nat
  restartConf : KafkaConfig
deriving DecidableEq

def onForwarderFatalError (currentKafka : KafkaConfig) : ForwarderErrorReaction :=
  ⟨true, 1, currentKafka⟩

/-- A message's persisted lifecycle state. -/
inductive MsgState
  | queued
  | sent
  | acked
  | failed
deriving DecidableEq

/-- Modelled from the spec: the Store's state-machine implementation is not
under src (only the forwarder from the store package is present).  Spec §4.1:
`ack` moves SENT→ACKED, `nack` moves SENT→QUEUED, `perm_error` moves
SENT→FAILED; a call for an unknown uid or in the wrong state is logged and
ignored.  Applying one store call to the per-uid state table. -/
def applyStoreAction (st : Uid → MsgState) : StoreAction → Uid → MsgState
  | .ack uid, u => if u = uid ∧ st uid = .sent then .acked else st u
  | .nack uid, u => if u = uid ∧ st uid = .sent then .queued else st u
  | .permError uid, u => if u = uid ∧ st uid = .sent then .failed else st u

/-- model.RawMessage as filled by the TCP connection handler. -/
structure RawMessage where
  client : String
  localPort : Int
  unixSocketPath : String
  message : String
deriving DecidableEq

/-- Outcome of the parser lookup and parser.Parse for one raw message:
no parser registered for the format, a non-nil parse error, or parsed fields. -/
inductive ParseOutcome
  | noParser
  | failed
  | ok (fields : SyslogMessage)

/-- Observable result of processing one raw message in the tcpHandler
goroutine: the Stash call (if any), how many uids were taken from the
generator channel, and the ParsingErrorCounter increments. -/
structure HandlerResult where
  stashed : Option StoredMessage
  uidsConsumed : Nat
  parsingErrors : Nat
deriving DecidableEq

/-- The body of the `for m := range raw_messages_chan` loop of
tcpHandler.HandleConnection (TCP service file, lines 156-183): the generator
channel is modelled as a stream `gen` with a read position `pos`. -/
def handleRawMessage (outcome : ParseOutcome) (gen : Nat → Uid) (pos : Nat)
    (confId : ConfId) (m : RawMessage) : HandlerResult × Nat :=
  match outcome with
  | .noParser => (⟨none, 0, 0⟩, pos)
  | .failed => (⟨none, 0, 1⟩, pos)
  | .ok fields =>
    (⟨some ⟨gen pos, confId, ⟨fields, m.client, m.localPort, m.unixSocketPath⟩⟩, 1, 0⟩,
      pos + 1)

/-- The cutset " \r\n" used by the framing functions. -/
def isWS (c : Char) : Bool := c = ' ' || c = '\r' || c = '\n'

/-- bytes.Trim(s, " \r\n"): trim the cutset from both ends. -/
def trimWS (cs : List Char) : List Char :=
  ((cs.dropWhile isWS).reverse.dropWhile isWS).reverse

/-- A decimal digit, as accepted by strconv.ParseInt with base 10. -/
def goDigit (c : Char) : Option Nat :=
  if '0' ≤ c ∧ c ≤ '9' then some (c.toNat - '0'.toNat) else none

/-- The value of a nonempty all-digit string; `none` otherwise. -/
def goDigits (cs : List Char) : Option Nat :=
  match cs with
  | [] => none
  | _ => cs.foldl
      (fun acc c =>
        match acc, goDigit c with
        | some v, some d => some (v * 10 + d)
        | _, _ => none)
      (some 0)

/-- strconv.ParseInt(s, 10, 64) (= strconv.Atoi on a 64-bit platform) on the
character list of the input: `(value, ok)`.  An optional single sign is
followed by at least one digit.  On a syntax error Go returns value 0; on a
64-bit range error it returns the saturated value; in both cases ok is
false. -/
def goParseInt64Chars (cs : List Char) : Int × Bool :=
  let signDigits : Bool × List Char :=
    match cs with
    | '+' :: rest => (false, rest)
    | '-' :: rest => (true, rest)
    | _ => (false, cs)
  match goDigits signDigits.2 with
  | none => (0, false)
  | some v =>
    let n : Int := if signDigits.1 then -(v : Int) else (v : Int)
    if n < -(2 ^ 63) then (-(2 ^ 63), false)
    else if 2 ^ 63 - 1 < n then (2 ^ 63 - 1, false)
    else (n, true)

def goParseInt64 (s : String) : Int × Bool :=
  goParseInt64Chars s.data

/-- strconv.Atoi with the error made explicit: `none` when err ≠ nil. -/
def goAtoi (s : String) : Option Int :=
  let r := goParseInt64 s
  if r.2 then some r.1 else none

/-- Go slice expression `cs[lo:hi]`: defined when 0 ≤ lo ≤ hi ≤ len(cs),
otherwise the Go runtime panics (modelled as `none`). -/
def goSlice (cs : List Char) (lo hi : Int) : Option (List Char) :=
  if 0 ≤ lo ∧ lo ≤ hi ∧ hi ≤ (cs.length : Int) then
    some ((cs.take hi.toNat).drop lo.toNat)
  else none

/-- Result of a bufio.SplitFunc call: a framed token with its advance count,
"need more data" (0, nil, nil), an error return, or a runtime panic from an
out-of-range slice expression. -/
inductive SplitResult
  | token (advance : Int) (tok : List Char)
  | needMore
  | errAtoi (s : String)
  | outOfBounds
deriving DecidableEq

/-- TcpSplit (TCP service file, lines 263-300): syslog TCP framing, either
LF framing (first byte '<') or octet-counting framing. -/
def TcpSplit (data : List Char) (atEOF : Bool) : SplitResult :=
  let trimmed_data := data.dropWhile isWS
  if trimmed_data.length = 0 then .needMore
  else
    let trimmed : Int := (data.length : Int) - (trimmed_data.length : Int)
    if trimmed_data.head? = some '<' then
      match trimmed_data.findIdx? (· = '\n') with
      | some lf =>
        match goSlice trimmed_data 0 (lf : Int) with
        | some s => .token (trimmed + lf + 1) (trimWS s)
        | none => .outOfBounds
      | none => .needMore
    else
      match trimmed_data.findIdx? (fun c => c = ' ' || c = '\n') with
      | none => .needMore
      | some sp =>
        if sp = 0 then .needMore
        else
          let datalen_s := String.mk (trimWS (trimmed_data.take sp))
          match goAtoi datalen_s with
          | none => .errAtoi datalen_s
          | some datalen =>
            let advance : Int := trimmed + sp + 1 + datalen
            if (data.length : Int) ≥ advance then
              match goSlice trimmed_data ((sp : Int) + 1) ((sp : Int) + 1 + datalen) with
              | some s => .token advance (trimWS s)
              | none => .outOfBounds
            else .needMore

/-- strings.ToLower for the ASCII journald field names (Char.toLower only
lowercases ASCII letters, which matches Go's behaviour on this domain). -/
def asciiLower (s : String) : String :=
  String.mk (s.data.map Char.toLower)

/-- strings.HasPrefix(k, "_"). -/
def headIsUnderscore (s : String) : Bool :=
  match s.data with
  | '_' :: _ => true
  | _ => false

/-- One iteration of the `for k, v := range entry` switch shared by both
EntryToSyslog variants, parametrized by the three branches that differ:
what the "priority", "syslog_facility" and "_source_realtime_timestamp"
cases do with the `(value, ok)` result of the integer parse. -/
def entryStep (onPriority onFacility : SyslogMessage → Int × Bool → SyslogMessage)
    (onTimestamp : SyslogMessage → Int × Bool → SyslogMessage)
    (acc : SyslogMessage × List (String × String)) (kv : String × String) :
    SyslogMessage × List (String × String) :=
  let m := acc.1
  let props := acc.2
  let k := asciiLower kv.1
  let v := kv.2
  if k = "syslog_identifier" then (m, props)
  else if k = "_comm" then ({ m with appname := v }, props)
  else if k = "message" then ({ m with message := v }, props)
  else if k = "syslog_pid" then (m, props)
  else if k = "_pid" then ({ m with procid := v }, props)
  else if k = "priority" then (onPriority m (goParseInt64 v), props)
  else if k = "syslog_facility" then (onFacility m (goParseInt64 v), props)
  else if k = "_hostname" then ({ m with hostname := v }, props)
  else if k = "_source_realtime_timestamp" then (onTimestamp m (goParseInt64 v), props)
  else if headIsUnderscore k then (m, props ++ [(k, v)])
  else (m, props)

/-- The epilogue shared by both EntryToSyslog variants (fallbacks for
Appname/Procid, TimeGenerated := time.Now(), TimeReported fallback when still
zero, and the journald properties). -/
def entryEpilogue (now : Int) (entry : List (String × String))
    (acc : SyslogMessage × List (String × String)) : SyslogMessage :=
  let m0 := acc.1
  let m1 :=
    if m0.appname = "" then { m0 with appname := (entry.lookup ("SYSLOG_IDENTIFIER")).getD "" }
    else m0
  let m2 :=
    if m1.procid = "" then { m1 with procid := (entry.lookup ("SYSLOG_PID")).getD "" }
    else m1
  let m3 := { m2 with timeGenerated := some now }
  let m4 := if m3.timeReported = none then { m3 with timeReported := some now } else m3
  { m4 with properties := acc.2 }

namespace Services

/-- services/journald.go EntryToSyslog: the numeric fields are used iff the
parse succeeded (`if err == nil`), Severity is set from "priority", and the
final Priority is Facility*8 + Severity.  The journald entry map is modelled
as an association list; `now` is time.Now(). -/
def EntryToSyslog (now : Int) (entry : List (String × String)) : SyslogMessage :=
  let acc := entry.foldl
    (entryStep
      (fun m r => if r.2 then { m with severity := r.1 } else m)
      (fun m r => if r.2 then { m with facility := r.1 } else m)
      (fun m r => if r.2 then { m with timeReported := some (r.1 * 1000) } else m))
    (emptySyslogMessage, [])
  let m := entryEpilogue now entry acc
  { m with priority := m.facility * 8 + m.severity }

end Services

namespace Server

/-- server/journald.go EntryToSyslog: same shape, but the error checks on the
three numeric fields are inverted (`if err != nil` uses the parsed value),
Priority is set directly from "priority", and there is no final
Facility*8+Severity computation. -/
def EntryToSyslog (now : Int) (entry : List (String × String)) : SyslogMessage :=
  entryEpilogue now entry
    (entry.foldl
      (entryStep
        (fun m r => if !r.2 then { m with priority := r.1 } else m)
        (fun m r => if !r.2 then { m with facility := r.1 } else m)
        (fun m r => if !r.2 then { m with timeReported := some (r.1 * 1000) } else m))
      (emptySyslogMessage, []))

end Server

/-- The ingest services restarted by the supervisor's Reload. -/
inductive ServiceKind
  | journal
  | audit
  | relp
  | tcp
  | udp
deriving DecidableEq

/-- The slice of conf.GConfig the Reload model needs. -/
structure GConfig where
  kafka : KafkaConfig
  syslogConfigs : List (ConfId × SyslogConf)
deriving DecidableEq

/-- A primitive operation performed by the supervisor.  `closeStore` (the
gCancel/WaitFinished shutdown of the store) and `createStore` (store.NewStore)
exist in Serve() but are listed here so the Reload trace can be shown not to
contain them. -/
inductive SupOp
  | storeAllConfigs (cfgs : List (ConfId × SyslogConf))
  | metricsNewConf
  | stopForwarder
  | startForwarder (k : KafkaConfig)
  | stopService (s : ServiceKind)
  | startService (s : ServiceKind)
  | closeStore
  | createStore
deriving DecidableEq

/-- The operation trace of the Reload closure (cmd/serve.go lines 611-667):
store the new syslog configs into the existing store, reconfigure metrics,
stop then restart the forwarder with the new Kafka config, then restart each
ingest service (the service restarts run in concurrent goroutines joined by a
WaitGroup; they are serialized here in program order — none of them touches
the store, so the interleaving is irrelevant to the store).  The journald and
audit restarts only happen when the platform supports them. -/
def Reload (journaldSupported auditSupported : Bool) (newConf : GConfig) : List SupOp :=
  [.storeAllConfigs newConf.syslogConfigs, .metricsNewConf,
   .stopForwarder, .startForwarder newConf.kafka]
  ++ (if journaldSupported then [.stopService .journal, .startService .journal] else [])
  ++ (if auditSupported then [.stopService .audit, .startService .audit] else [])
  ++ [.stopService .relp, .startService .relp,
      .stopService .tcp, .startService .tcp,
      .stopService .udp, .startService .udp]

/-- The store's persisted content and whether it has been torn down. -/
structure StoreContent where
  configs : List (ConfId × SyslogConf)
  queuedMsgs : List StoredMessage
  sentMsgs : List StoredMessage
  failedMsgs : List StoredMessage
  closed : Bool
deriving DecidableEq

/-- store.StoreAllSyslogConfigs on one config: old entries are preserved,
an entry with the same config id is overwritten, a new one is appended. -/
def upsertConfig (cs : List (ConfId × SyslogConf)) (kv : ConfId × SyslogConf) :
    List (ConfId × SyslogConf) :=
  if cs.any (fun p => p.1 == kv.1) then cs.map (fun p => if p.1 == kv.1 then kv else p)
  else cs ++ [kv]

def upsertConfigs (old new : List (ConfId × SyslogConf)) : List (ConfId × SyslogConf) :=
  new.foldl upsertConfig old

/-- The supervisor state affected by Reload. -/
structure SupState where
  store : StoreContent
  forwarderRunning : Bool
  currentKafka : KafkaConfig

/-- Effect of each supervisor operation on the supervisor state. -/
def applySupOp (s : SupState) : SupOp → SupState
  | .storeAllConfigs cfgs =>
    { s with store := { s.store with configs := upsertConfigs s.store.configs cfgs } }
  | .metricsNewConf => s
  | .stopForwarder => { s with forwarderRunning := false }
  | .startForwarder k => { s with forwarderRunning := true, currentKafka := k }
  | .stopService _ => s
  | .startService _ => s
  | .closeStore => { s with store := { s.store with closed := true } }
  | .createStore =>
    { s with store := ⟨[], [], [], [], false⟩ }

/-- The supervisor state after running the whole Reload trace. -/
def reloadResult (journaldSupported auditSupported : Bool) (newConf : GConfig)
    (s : SupState) : SupState :=
  (Reload journaldSupported auditSupported newConf).foldl applySupOp s

theorem handleResponse_fst (st : ListenerState) (r : KafkaResponse) :
    (handleResponse st r).1 = [respAction r] := by
  cases r with
  | succ uid topic => rfl
  | fail uid topic fatal =>
    simp only [handleResponse, respAction]
    split <;> rfl

theorem sendWithEnv_exactly_one (fwd : FwdEnv) (pp : Bool) (env : SyslogConf)
    (msg : StoredMessage) (cache : List (ConfId × SyslogConf)) :
    ((∃ a, (sendWithEnv fwd pp env msg cache).1 = [a]) ∧
      ∀ m, (sendWithEnv fwd pp env msg cache).2.1 ≠ .toProducer m) ∨
    ((sendWithEnv fwd pp env msg cache).1 = [] ∧
      ∃ m, (sendWithEnv fwd pp env msg cache).2.1 = .toProducer m ∧
        m.metadata = msg.uid) := by
  dsimp only [sendWithEnv]
  split
  · exact Or.inl ⟨⟨_, rfl⟩, by simp⟩
  · split
    · exact Or.inl ⟨⟨_, rfl⟩, by simp⟩
    · exact Or.inl ⟨⟨_, rfl⟩, by simp⟩
    · exact Or.inl ⟨⟨_, rfl⟩, by simp⟩
    · split
      · exact Or.inl ⟨⟨_, rfl⟩, by simp⟩
      · split
        · exact Or.inr ⟨rfl, _, rfl, rfl⟩
        · exact Or.inl ⟨⟨_, rfl⟩, by simp⟩
    · exact Or.inl ⟨⟨_, rfl⟩, by simp⟩

/-- Claim C1: every branch of the per-message processing of
getAndSendMessages either performs exactly one terminal store call (ack, nack
or perm_error) and hands nothing to the producer, or performs none and hands
the message to the producer tagged with its uid; and for each broker response
listenKafkaResponses performs exactly one terminal call — an ACK for a
success, a NACK for an error. -/
theorem forwarder_message_exactly_one_terminal (fwd : FwdEnv) (pp : Bool)
    (cache : List (ConfId × SyslogConf)) (msg : StoredMessage) :
    (((∃ a, (getAndSendOne fwd pp cache msg).1 = [a]) ∧
        ∀ m, (getAndSendOne fwd pp cache msg).2.1 ≠ .toProducer m) ∨
      ((getAndSendOne fwd pp cache msg).1 = [] ∧
        ∃ m, (getAndSendOne fwd pp cache msg).2.1 = .toProducer m ∧
          m.metadata = msg.uid)) ∧
    ∀ st r, (handleResponse st r).1 = [respAction r] := by
  refine ⟨?_, handleResponse_fst⟩
  unfold getAndSendOne
  split
  · exact sendWithEnv_exactly_one ..
  · split
    · exact Or.inl ⟨⟨_, rfl⟩, by simp⟩
    · exact sendWithEnv_exactly_one ..

/-- Claim C2: with the filter environment for the message's config id in the
cache, an empty computed topic or partition key yields perm_error (before the
filter runs); otherwise the verdict determines the store call: DROPPED → ack
with no send, REJECTED → nack, ERROR (the default branch) → perm_error. -/
theorem filter_verdict_determines_action (fwd : FwdEnv) (pp : Bool)
    (cache : List (ConfId × SyslogConf)) (msg : StoredMessage) (env : SyslogConf)
    (henv : cache.lookup msg.confId = some env) :
    ((fwd.Topic env msg.parsed.fields).length = 0 ∨
        (fwd.PartitionKey env msg.parsed.fields).length = 0 →
      getAndSendOne fwd pp cache msg = ([.permError msg.uid], .noSend, cache)) ∧
    ((fwd.Topic env msg.parsed.fields).length ≠ 0 →
      (fwd.PartitionKey env msg.parsed.fields).length ≠ 0 →
      (∀ t, fwd.FilterMessage env msg.parsed.fields = (t, .DROPPED) →
        getAndSendOne fwd pp cache msg = ([.ack msg.uid], .noSend, cache)) ∧
      (∀ t, fwd.FilterMessage env msg.parsed.fields = (t, .REJECTED) →
        getAndSendOne fwd pp cache msg = ([.nack msg.uid], .noSend, cache)) ∧
      (∀ t, fwd.FilterMessage env msg.parsed.fields = (t, .ERROR) →
        getAndSendOne fwd pp cache msg = ([.permError msg.uid], .noSend, cache))) := by
  unfold getAndSendOne
  rw [henv]
  dsimp only [sendWithEnv]
  constructor
  · intro h
    rw [if_pos h]
  · intro ht hp
    rw [if_neg (by rintro (h | h) <;> [exact ht h; exact hp h])]
    refine ⟨fun t hf => ?_, fun t hf => ?_, fun t hf => ?_⟩ <;>
      rw [hf] <;> cases t <;> rfl

theorem forwardCalls_busy (s : ForwarderState) (h : s.forwarding = true) :
    ∀ n, (forwardCalls s n).1.count true = 0 ∧ (forwardCalls s n).2 = s := by
  intro n
  induction n with
  | zero => exact ⟨rfl, rfl⟩
  | succ n ih =>
    have hs : Forward s = (false, s) := by simp [Forward, h]
    simp only [forwardCalls, hs]
    refine ⟨?_, ih.2⟩
    simp [List.count_cons, ih.1]

/-- Claim C3: Forward on a forwarder already running a session returns false
and changes nothing; any serialization of concurrent Forward calls starting
from an idle forwarder yields exactly one true result; and the monitor
goroutine clears the forwarding flag only once the session workgroup has
drained to zero. -/
theorem single_forwarding_session (s₁ s₂ : ForwarderState) (n : Nat)
    (h1 : s₁.forwarding = true) (h2 : s₂.forwarding = false)
    (h3 : s₁.wgCount ≠ 0) :
    Forward s₁ = (false, s₁) ∧
    (forwardCalls s₂ (n + 1)).1.count true = 1 ∧
    monitorClear s₁ = s₁ := by
  refine ⟨by simp [Forward, h1], ?_, by simp [monitorClear, h3]⟩
  have hstep : Forward s₂ = (true, ⟨true, s₂.wgCount + 1⟩) := by
    simp [Forward, h2]
  simp only [forwardCalls, hstep]
  have hb := forwardCalls_busy ⟨true, s₂.wgCount + 1⟩ rfl n
  simp [List.count_cons, hb.1]

theorem runListener_actions (rs : List KafkaResponse) :
    ∀ st, (runListener st rs).1 = rs.map respAction := by
  induction rs with
  | nil => intro st; rfl
  | cons r rs ih =>
    intro st
    simp only [runListener, List.map_cons]
    rw [handleResponse_fst, ih]
    rfl

theorem runListener_closeCount (rs : List KafkaResponse) :
    ∀ st : ListenerState,
      (runListener st rs).2.closeCount =
        st.closeCount + (if st.onceDone then 0 else if hasFatal rs then 1 else 0) := by
  induction rs with
  | nil => intro st; simp [runListener, hasFatal]
  | cons r rs ih =>
    intro st
    cases r with
    | succ uid topic =>
      simp only [runListener, handleResponse]
      rw [ih st]
      have : hasFatal (.succ uid topic :: rs) = hasFatal rs := by
        simp [hasFatal]
      rw [this]
    | fail uid topic fatal =>
      rcases st with ⟨o, c⟩
      cases o <;> cases fatal <;>
        simp_all [runListener, handleResponse, hasFatal, ih]

/-- Claim C4: the listener NACKs the message uid of every broker error, fatal
or not (a success is ACKed); over any trace of responses the errors channel is
closed exactly once when a fatal error occurs and never otherwise (the
sync.Once guard makes a second close impossible); and the supervisor's
reaction to the closed channel is to stop the forwarder and restart it with
the current broker config after a backoff of one second (≥ 1 s). -/
theorem broker_error_nack_fatal_close_once (rs : List KafkaResponse)
    (k : KafkaConfig) :
    (listenKafkaResponses rs).1 = rs.map respAction ∧
    (∀ uid topic fatal, respAction (.fail uid topic fatal) = .nack uid) ∧
    (∀ uid topic, respAction (.succ uid topic) = .ack uid) ∧
    (listenKafkaResponses rs).2.closeCount = (if hasFatal rs then 1 else 0) ∧
    (listenKafkaResponses rs).2.closeCount ≤ 1 ∧
    onForwarderFatalError k = ⟨true, 1, k⟩ ∧
    1 ≤ (onForwarderFatalError k).backoffSeconds := by
  have hc := runListener_closeCount rs ⟨false, 0⟩
  refine ⟨runListener_actions rs _, fun _ _ _ => rfl, fun _ _ => rfl, ?_, ?_, rfl,
    le_refl 1⟩
  · simpa [listenKafkaResponses] using hc
  · simp only [listenKafkaResponses] at hc ⊢
    rw [hc]
    split_ifs <;> simp

/-- Claim C5: in test mode the session starts no producer and no response
listener (only the sender task, with a nil producer), and a message that
passes the filter with a non-nil transformed record and valid
topic/partition/encoding is printed to standard output and immediately ACKed
to the store. -/
theorem test_mode_prints_and_acks (g : Bool) (fwd : FwdEnv)
    (cache : List (ConfId × SyslogConf)) (msg : StoredMessage) (env : SyslogConf)
    (tmsg : SyslogMessage) (km : KafkaMsg)
    (henv : cache.lookup msg.confId = some env)
    (ht : (fwd.Topic env msg.parsed.fields).length ≠ 0)
    (hp : (fwd.PartitionKey env msg.parsed.fields).length ≠ 0)
    (hf : fwd.FilterMessage env msg.parsed.fields = (some tmsg, .PASS))
    (hk : fwd.ToKafkaMessage
        ⟨tmsg, msg.parsed.client, msg.parsed.localPort, msg.parsed.unixSocketPath⟩
        (fwd.PartitionKey env msg.parsed.fields)
        (fwd.Topic env msg.parsed.fields) = some km) :
    doForward true g = ⟨false, false, true, false⟩ ∧
    getAndSendOne fwd false cache msg =
      ([.ack msg.uid], .printed { km with metadata := msg.uid }, cache) := by
  refine ⟨by simp [doForward], ?_⟩
  unfold getAndSendOne
  rw [henv]
  dsimp only [sendWithEnv]
  rw [if_neg (by rintro (h | h) <;> [exact ht h; exact hp h]), hf]
  dsimp only
  rw [hk]
  rfl

/-- Claim C6: when a message's config id is not cached and the store's
GetSyslogConfig errors, the forwarder perm_errors exactly that message (which
moves a SENT message to FAILED in the store's state machine), the cache is
unchanged, processing continues with the rest of the outputs, and no other
uid's state is affected. -/
theorem config_missing_perm_error (fwd : FwdEnv) (pp : Bool)
    (cache : List (ConfId × SyslogConf)) (m : StoredMessage)
    (rest : List StoredMessage) (st : Uid → MsgState)
    (hc : cache.lookup m.confId = none)
    (hg : fwd.GetSyslogConfig m.confId = none)
    (hsent : st m.uid = .sent) :
    getAndSendOne fwd pp cache m = ([.permError m.uid], .noSend, cache) ∧
    (getAndSendMessages fwd pp cache (m :: rest)).1 =
      .permError m.uid :: (getAndSendMessages fwd pp cache rest).1 ∧
    applyStoreAction st (.permError m.uid) m.uid = .failed ∧
    ∀ u, u ≠ m.uid → applyStoreAction st (.permError m.uid) u = st u := by
  have h1 : getAndSendOne fwd pp cache m = ([.permError m.uid], .noSend, cache) := by
    unfold getAndSendOne
    rw [hc]
    dsimp only
    rw [hg]
  refine ⟨h1, ?_, ?_, ?_⟩
  · simp only [getAndSendMessages, h1]
    rfl
  · simp [applyStoreAction, hsent]
  · intro u hu
    simp [applyStoreAction, hu]

/-- Claim C7: in the TCP connection handler, a raw message whose parse fails
is dropped: the parsing-error metric is incremented, no uid is taken from the
generator, and Stash is not called; a successful parse consumes one uid and
stashes the message; an unknown parser stashes nothing either. -/
theorem parse_failure_not_stashed (gen : Nat → Uid) (pos : Nat)
    (confId : ConfId) (m : RawMessage) :
    handleRawMessage .failed gen pos confId m = (⟨none, 0, 1⟩, pos) ∧
    (∀ fields, handleRawMessage (.ok fields) gen pos confId m =
      (⟨some ⟨gen pos, confId, ⟨fields, m.client, m.localPort, m.unixSocketPath⟩⟩,
        1, 0⟩, pos + 1)) ∧
    handleRawMessage .noParser gen pos confId m = (⟨none, 0, 0⟩, pos) :=
  ⟨rfl, fun _ => rfl, rfl⟩

/-- Claim C8 (failing input): server/journald.go's EntryToSyslog uses the
parsed _source_realtime_timestamp only when parsing FAILS.  On the valid
field value "1000000" it ignores the parse and falls back to TimeGenerated
(here 7777), and on the invalid value "oops" it sets TimeReported to the
epoch (t = 0); on a valid "priority" it ignores the value while a range
error makes it store the saturated 64-bit value.  services/journald.go's
EntryToSyslog implements the claimed iff-success rule on the same inputs. -/
theorem journald_timestamp_check_inverted :
    (Server.EntryToSyslog 7777
        [("_source_realtime_timestamp", "1000000")]).timeReported = some 7777 ∧
    (Server.EntryToSyslog 7777
        [("_source_realtime_timestamp", "oops")]).timeReported = some 0 ∧
    (Server.EntryToSyslog 7777 [("PRIORITY", "3")]).priority = 0 ∧
    (Server.EntryToSyslog 7777
        [("PRIORITY", "9223372036854775808")]).priority = 9223372036854775807 ∧
    (Services.EntryToSyslog 7777
        [("_source_realtime_timestamp", "1000000")]).timeReported
      = some 1000000000 ∧
    (Services.EntryToSyslog 7777
        [("_source_realtime_timestamp", "oops")]).timeReported = some 7777 ∧
    (Services.EntryToSyslog 7777 [("PRIORITY", "3")]).severity = 3 ∧
    (Services.EntryToSyslog 7777 [("SYSLOG_FACILITY", "x")]).facility = 0 := by
  decide

/-- Claim C9: the supervisor's Reload trace never closes, cancels or
recreates the store; after running it, the store's persisted messages are
untouched and only the configs are upserted, while the forwarder has been
stopped and restarted with the new broker config and every supported ingest
service has been stopped and started. -/
theorem reload_preserves_store (js as : Bool) (newConf : GConfig) (s : SupState) :
    (reloadResult js as newConf s).store.closed = s.store.closed ∧
    (reloadResult js as newConf s).store.queuedMsgs = s.store.queuedMsgs ∧
    (reloadResult js as newConf s).store.sentMsgs = s.store.sentMsgs ∧
    (reloadResult js as newConf s).store.failedMsgs = s.store.failedMsgs ∧
    (reloadResult js as newConf s).store.configs =
      upsertConfigs s.store.configs newConf.syslogConfigs ∧
    (reloadResult js as newConf s).forwarderRunning = true ∧
    (reloadResult js as newConf s).currentKafka = newConf.kafka ∧
    SupOp.closeStore ∉ Reload js as newConf ∧
    SupOp.createStore ∉ Reload js as newConf ∧
    SupOp.stopForwarder ∈ Reload js as newConf ∧
    SupOp.startForwarder newConf.kafka ∈ Reload js as newConf ∧
    (∀ k : ServiceKind, k ≠ .journal → k ≠ .audit →
      SupOp.stopService k ∈ Reload js as newConf ∧
      SupOp.startService k ∈ Reload js as newConf) := by
  cases js <;> cases as <;>
    refine ⟨rfl, rfl, rfl, rfl, rfl, rfl, rfl, by simp [Reload], by simp [Reload],
      by simp [Reload], by simp [Reload], ?_⟩ <;>
    (intro k h1 h2; cases k <;> simp_all [Reload])

/-- Claim C10 (failing input): on the octet-counting input "-5 abc" the
length field parses successfully to -5, the advance becomes negative, and
the token slice trimmed_data[3:-2] is out of bounds — the Go runtime panics,
so TcpSplit is not total. -/
theorem tcpsplit_negative_count_out_of_bounds :
    TcpSplit ("-5 abc".toList) false = .outOfBounds ∧
    goAtoi ("-5") = some (-5) ∧
    TcpSplit ("-1 a".toList) false = .outOfBounds := by
  decide

/-- A concrete syslog source config for instantiating the theorems. -/
def sampleConf : SyslogConf :=
  ⟨"cfg1", "f", "t", "", "p", ""⟩

/-- A concrete stored message with config id "cfg1". -/
def sampleMsg : StoredMessage :=
  ⟨"uid1", "cfg1", ⟨emptySyslogMessage, "client", 514, ""⟩⟩

/-- A concrete Kafka message. -/
def sampleKafka : KafkaMsg :=
  ⟨"topic1", "pk", "value", ""⟩

/-- A forwarder environment whose filter drops every message. -/
def droppedFwd : FwdEnv :=
  ⟨fun _ => some sampleConf, fun _ _ => "topic1", fun _ _ => "pk",
   fun _ _ => (some emptySyslogMessage, .DROPPED), fun _ _ _ => some sampleKafka⟩

/-- A forwarder environment whose filter passes every message. -/
def passFwd : FwdEnv :=
  ⟨fun _ => some sampleConf, fun _ _ => "topic1", fun _ _ => "pk",
   fun _ _ => (some emptySyslogMessage, .PASS), fun _ _ _ => some sampleKafka⟩

/-- A forwarder environment whose store has no configs at all. -/
def noConfFwd : FwdEnv :=
  ⟨fun _ => none, fun _ _ => "topic1", fun _ _ => "pk",
   fun _ _ => (none, .PASS), fun _ _ _ => none⟩

/-- Witness for C2 at a concrete input: the cached env is found, the topic
and partition key are nonempty, and a DROPPED verdict yields exactly an ACK
with no broker send. -/
theorem filter_verdict_witness :
    [(("cfg1" : ConfId), sampleConf)].lookup sampleMsg.confId = some sampleConf ∧
    (droppedFwd.Topic sampleConf sampleMsg.parsed.fields).length ≠ 0 ∧
    (droppedFwd.PartitionKey sampleConf sampleMsg.parsed.fields).length ≠ 0 ∧
    droppedFwd.FilterMessage sampleConf sampleMsg.parsed.fields =
      (some emptySyslogMessage, .DROPPED) ∧
    getAndSendOne droppedFwd true [("cfg1", sampleConf)] sampleMsg =
      ([.ack sampleMsg.uid], .noSend, [("cfg1", sampleConf)]) :=
  ⟨by decide, by decide, by decide, rfl,
    ((filter_verdict_determines_action droppedFwd true [("cfg1", sampleConf)]
        sampleMsg sampleConf (by decide)).2 (by decide) (by decide)).1
      (some emptySyslogMessage) rfl⟩

/-- Witness for C3 at concrete states: a busy forwarder (flag set, workgroup
count 1) refuses a session and is not cleared, and three serialized calls on
an idle forwarder succeed exactly once. -/
theorem single_forwarding_session_witness :
    Forward ⟨true, 1⟩ = (false, ⟨true, 1⟩) ∧
    (forwardCalls ⟨false, 0⟩ 3).1.count true = 1 ∧
    monitorClear ⟨true, 1⟩ = ⟨true, 1⟩ :=
  single_forwarding_session ⟨true, 1⟩ ⟨false, 0⟩ 2 rfl rfl (by decide)

/-- Witness for C5 at a concrete input: the test-mode session starts only the
sender with no producer, and a passing message is printed and ACKed. -/
theorem test_mode_witness :
    [(("cfg1" : ConfId), sampleConf)].lookup sampleMsg.confId = some sampleConf ∧
    passFwd.FilterMessage sampleConf sampleMsg.parsed.fields =
      (some emptySyslogMessage, .PASS) ∧
    doForward true false = ⟨false, false, true, false⟩ ∧
    getAndSendOne passFwd false [("cfg1", sampleConf)] sampleMsg =
      ([.ack sampleMsg.uid], .printed { sampleKafka with metadata := sampleMsg.uid },
        [("cfg1", sampleConf)]) := by
  have h := test_mode_prints_and_acks false passFwd [("cfg1", sampleConf)] sampleMsg
    sampleConf emptySyslogMessage sampleKafka (by decide) (by decide) (by decide)
    rfl rfl
  exact ⟨by decide, rfl, h.1, h.2⟩

/-- Witness for C6 at a concrete input: an empty cache, a store with no
configs, and a message in SENT: the forwarder perm_errors it, the store moves
it to FAILED, and other uids are untouched. -/
theorem config_missing_witness :
    ([] : List (ConfId × SyslogConf)).lookup sampleMsg.confId = none ∧
    noConfFwd.GetSyslogConfig sampleMsg.confId = none ∧
    (fun _ : Uid => MsgState.sent) sampleMsg.uid = .sent ∧
    (getAndSendOne noConfFwd true [] sampleMsg =
        ([.permError sampleMsg.uid], .noSend, []) ∧
      (getAndSendMessages noConfFwd true [] [sampleMsg]).1 =
        .permError sampleMsg.uid :: (getAndSendMessages noConfFwd true [] []).1 ∧
      applyStoreAction (fun _ => .sent) (.permError sampleMsg.uid) sampleMsg.uid
        = .failed ∧
      ∀ u, u ≠ sampleMsg.uid →
        applyStoreAction (fun _ => .sent) (.permError sampleMsg.uid) u =
          (fun _ : Uid => MsgState.sent) u) :=
  ⟨rfl, rfl, rfl,
    config_missing_perm_error noConfFwd true [] sampleMsg [] (fun _ => .sent)
      rfl rfl rfl⟩
